import Mathlib

/-!
Verification development for the LCOW (Linux Containers On Windows) slice of
hcsshim, `vendor/github.com/Microsoft/hcsshim/lcow.go`.

The Go source is shallowly embedded: each external call (disk attach/detach,
remote process execution, file copy, file stat) is resolved by an explicit
environment record, and every externally visible action is recorded in an
event trace so that cleanup and frame properties can be stated over traces.
-/

namespace LCOW

/-! ## Go standard-library string and path helpers

Lean's built-in `String.splitOn`, `String.intercalate` etc. do not reduce
inside the kernel, so the Go string operations this file needs are modelled
structurally over `List Char`. -/

/-- Split a character list at every occurrence of the separator character
(the semantics of Go `strings.Split` for a one-character separator). -/
def splitOnCharAux (sep : Char) : List Char → List Char → List (List Char)
  | [], acc => [acc.reverse]
  | c :: cs, acc =>
    if c = sep then acc.reverse :: splitOnCharAux sep cs []
    else splitOnCharAux sep cs (c :: acc)

def splitOnChar (sep : Char) (s : String) : List String :=
  (splitOnCharAux sep s.toList []).map List.asString

/-- Join a list of strings with a one-character separator
(`strings.Join(parts, sep)`). -/
def joinWithChar (sep : Char) : List String → String
  | [] => ""
  | [x] => x
  | x :: rest => x ++ sep.toString ++ joinWithChar sep rest

/-- `path.Clean`: resolves "." and ".." elements and collapses slashes,
following the Go `path` package semantics. The stack is kept reversed
(head = most recent element). -/
def pathCleanStep (rooted : Bool) (acc : List String) (part : String) : List String :=
  if part = "" || part = "." then acc
  else if part = ".." then
    match acc with
    | [] => if rooted then [] else [".."]
    | top :: rest => if top = ".." then part :: acc else rest
  else part :: acc

def pathClean (p : String) : String :=
  let rooted := p.toList.headD ' ' = '/'
  let stack := (splitOnChar '/' p).foldl (pathCleanStep rooted) []
  let s := joinWithChar '/' stack.reverse
  if rooted then "/" ++ s
  else if s = "" then "." else s

/-- `path.Join(a, b)`: drop empty elements, join with "/", clean. -/
def pathJoin (a b : String) : String :=
  match (if a = "" then [] else [a]) ++ (if b = "" then [] else [b]) with
  | [] => ""
  | parts => pathClean (joinWithChar '/' parts)

/-- Scan for the first `=`: returns the characters before it and, when an
`=` exists, the characters after it. -/
def breakAtEq : List Char → List Char × Option (List Char)
  | [] => ([], none)
  | c :: cs =>
    if c = '=' then ([], some cs)
    else
      let (a, b) := breakAtEq cs
      (c :: a, b)

/-- `strings.SplitN(s, "=", 2)`: split at the first "=" only. -/
def splitN2Eq (s : String) : List String :=
  match breakAtEq s.toList with
  | (a, none) => [a.asString]
  | (a, some b) => [a.asString, b.asString]

/-- The key of a mount option: `elements[0]` of `strings.SplitN(opt, "=", 2)`. -/
def optKey (opt : String) : String := (splitN2Eq opt).headD ""

/-! ## Mount/bind translation (`createLCOWv1`, lines 151-204) -/

/-- `specs.Mount` restricted to the fields `createLCOWv1` reads. -/
structure SpecMount where
  mountType : String
  Source : String
  Destination : String
  Options : List String
deriving DecidableEq, Repr

/-- `hcsshim.MappedDir` restricted to the fields `createLCOWv1` writes. -/
structure MappedDir where
  HostPath : String
  ContainerPath : String
  CreateInUtilityVM : Bool
  ReadOnly : Bool
deriving DecidableEq, Repr

inductive MountErr where
  /-- `fmt.Errorf("unsupported option %q", opt)` -/
  | unsupportedOption (opt : String)
  /-- `fmt.Errorf("no uvmpath for bind mount %+v", mount)` -/
  | missingUvmPath (m : SpecMount)
  /-- `elements[1]` with `len(elements) == 1` panics in Go
      (an option literally equal to "uvmpath", with no "="). -/
  | panicIndexOutOfRange
deriving DecidableEq, Repr

/-- One iteration of the option loop: the accumulator is
`(updatedOptions, uvmPath, readonly)`. -/
def processOpt (opt : String) (updated : List String) (uvmPath : String)
    (readonly : Bool) : Except MountErr (List String × String × Bool) :=
  match splitN2Eq opt with
  | key :: restEls =>
    if key = "uvmpath" then
      match restEls with
      | [v] => .ok (updated, v, readonly)          -- dropOption = true
      | _ => .error .panicIndexOutOfRange          -- elements[1] out of range
    else if key = "rw" then .ok (updated ++ [opt], uvmPath, readonly)
    else if key = "ro" then .ok (updated ++ [opt], uvmPath, true)
    else if key = "rbind" then .ok (updated ++ [opt], uvmPath, readonly)
    else .error (.unsupportedOption opt)
  | [] => .error .panicIndexOutOfRange             -- unreachable: splitN2Eq ≠ []

/-- The option loop over `mount.Options`, left to right. -/
def processOptsList : List String → List String → String → Bool →
    Except MountErr (List String × String × Bool)
  | [], updated, uvmPath, readonly => .ok (updated, uvmPath, readonly)
  | opt :: rest, updated, uvmPath, readonly =>
    match processOpt opt updated uvmPath readonly with
    | .error e => .error e
    | .ok (u, p, r) => processOptsList rest u p r

/-- Translation of a single mount. For a bind mount the Go code first copies
the loop variable into `specMount`, then rewrites the *copy held in `mount`*'s
Options; since `specMount` was taken before that assignment, the forwarded
spec mount keeps the ORIGINAL option list and only its `Source` is rewritten. -/
def processMount (m : SpecMount) : Except MountErr (Option MappedDir × SpecMount) :=
  if m.mountType = "bind" then
    match processOptsList m.Options [] "" false with
    | .error e => .error e
    | .ok (updatedOptions, uvmPath, readonly) =>
      if uvmPath = "" then
        .error (.missingUvmPath { m with Options := updatedOptions })
      else
        .ok (some { HostPath := m.Source,
                    ContainerPath := pathJoin uvmPath m.Destination,
                    CreateInUtilityVM := true,
                    ReadOnly := readonly },
             { m with Source := pathJoin uvmPath m.Destination })
  else .ok (none, m)

/-- The whole mount loop: builds `mds` and `specMounts` in order, stopping at
the first failing mount exactly as the Go `for` loop's early `return` does. -/
def translateMounts : List SpecMount →
    Except MountErr (List MappedDir × List SpecMount)
  | [] => .ok ([], [])
  | m :: rest =>
    match processMount m with
    | .error e => .error e
    | .ok (md?, sm) =>
      match translateMounts rest with
      | .error e => .error e
      | .ok (mds, sms) => .ok (md?.toList ++ mds, sm :: sms)

/-- The slice of `CreateOptions` that the mount handling touches. -/
structure CreateOptionsM where
  Mounts : List SpecMount
deriving DecidableEq, Repr

inductive CreateErr where
  | mountErr (e : MountErr)
  | createContainerFailed
deriving DecidableEq, Repr

/-- `createLCOWv1`, restricted to its mount handling and the surrounding
control flow: translate the mounts; on success hand the mapped directories to
`CreateContainer` (whose outcome is the oracle `createContainerOk`); only
after `CreateContainer` succeeds is `createOptions.Spec.Mounts` overwritten
with the rewritten list. The second component of the result is the final
state of the caller's options. -/
def createLCOWv1 (createContainerOk : Bool) (opts : CreateOptionsM) :
    Except CreateErr (List MappedDir) × CreateOptionsM :=
  match translateMounts opts.Mounts with
  | .error e => (.error (.mountErr e), opts)
  | .ok (mds, specMounts) =>
    if createContainerOk then (.ok mds, { opts with Mounts := specMounts })
    else (.error .createContainerFailed, opts)

/-- Does the mount's option list lack any `uvmpath=<p>` option? -/
def hasNoUvmpathOption (m : SpecMount) : Bool :=
  m.Options.all (fun o => optKey o != "uvmpath")

def isMissingUvmPathErr :
    Except MountErr (List MappedDir × List SpecMount) → Bool
  | .error (.missingUvmPath _) => true
  | _ => false

/-! ## Scratch-disk provisioning (`CreateLCOWScratch`, lines 261-401) -/

/-- `DefaultLCOWScratchSizeGB` -/
def DefaultLCOWScratchSizeGB : Nat := 20

/-- `defaultLCOWVhdxBlockSizeMB` -/
def defaultLCOWVhdxBlockSizeMB : Nat := 1

/-- The input normalization at the top of `CreateLCOWScratch`:
`if sizeGB < DefaultLCOWScratchSizeGB { sizeGB = DefaultLCOWScratchSizeGB }`. -/
def effectiveSizeGB (sizeGB : Nat) : Nat :=
  if sizeGB < DefaultLCOWScratchSizeGB then DefaultLCOWScratchSizeGB else sizeGB

/-- Decimal rendering of a `Nat` (for `fmt.Sprintf("%d", ...)`), defined
structurally so the kernel can evaluate it. -/
def natToStrAux : Nat → Nat → List Char → List Char
  | 0, _, acc => acc
  | fuel + 1, n, acc =>
    let d := Char.ofNat (48 + n % 10)
    if n < 10 then d :: acc else natToStrAux fuel (n / 10) (d :: acc)

def natToStr (n : Nat) : String := (natToStrAux (n + 1) n []).asString

/-- Characters trimmed by Go `strings.TrimSpace` (ASCII subset). -/
def isSpaceChar (c : Char) : Bool :=
  c = ' ' || c = '\t' || c = '\n' || c = '\r' || c = '\x0B' || c = '\x0C'

def trimSpace (s : String) : String :=
  (((s.toList.dropWhile isSpaceChar).reverse.dropWhile isSpaceChar).reverse).asString

/-- `fmt.Sprintf("/sys/bus/scsi/devices/%d:0:0:%d", controller, lun)` -/
def scsiDevPath (controller lun : Nat) : String :=
  "/sys/bus/scsi/devices/" ++ natToStr controller ++ ":0:0:" ++ natToStr lun

/-- `testdCommand`: validate the device directory exists. -/
def testdCommand (controller lun : Nat) : List String :=
  ["test", "-d", scsiDevPath controller lun]

/-- `lsCommand`: list the `block` subdirectory to find the device leaf name. -/
def lsCommand (controller lun : Nat) : List String :=
  ["ls", scsiDevPath controller lun ++ "/block"]

/-- The `-O` feature argument of the `mkfs.ext4` invocation, verbatim from the
source: `^f` disables feature `f`, a bare `f` enables it. -/
def mkfsFeatureSpec : String := "^has_journal,sparse_super2,uninit_bg,^resize_inode"

/-- `mkfsCommand`: the remote format command. -/
def mkfsCommand (device : String) : List String :=
  ["mkfs.ext4", "-q", "-E", "lazy_itable_init=1", "-O", mkfsFeatureSpec, device]

def mkfsFeatureTokens : List String := splitOnChar ',' mkfsFeatureSpec

/-- mkfs.ext4 `-O` semantics: feature `f` is explicitly disabled when the
token `^f` appears in the comma-separated feature list. -/
def featureDisabled (f : String) : Bool := mkfsFeatureTokens.contains ("^" ++ f)

/-- mkfs.ext4 `-O` semantics: feature `f` is explicitly enabled when the bare
token `f` appears in the comma-separated feature list. -/
def featureEnabled (f : String) : Bool := mkfsFeatureTokens.contains f

/-- Externally visible actions of `CreateLCOWScratch`, in program order. -/
inductive ScratchEvent where
  /-- `os.Stat(cacheFile)` -/
  | statFile (p : String)
  /-- `CopyFile(src, dst, overwrite/durable flag)` -/
  | copyFile (src dst : String) (durable : Bool)
  /-- `winio.CreateVhdx(destFile, sizeGB, blockSizeMB)` -/
  | createVhdx (p : String) (sizeGB blockMB : Nat)
  /-- `uvmc.DebugLCOWGCS()` (best-effort diagnostics) -/
  | debugGCS
  /-- `AddSCSI(uvm, destFile, "")` -/
  | addSCSI (p : String)
  /-- `CreateProcessEx` with the given command args in the utility VM -/
  | execProcess (args : List String)
  /-- deferred `proc.Close()` of the process with the given command args -/
  | closeProcess (args : List String)
  /-- `removeSCSI(uvm, destFile, controller, lun)` -/
  | removeSCSI (p : String) (controller lun : Nat)
deriving DecidableEq, Repr

/-- Outcomes of the external calls `CreateLCOWScratch` makes; each field
resolves the call at the corresponding call site. -/
structure ScratchEnv where
  /-- `os.Stat(cacheFile)` returns nil error -/
  cacheStatOk : Bool
  /-- `CopyFile(cacheFile, destFile, false)` succeeds -/
  copyCacheOk : Bool
  /-- `winio.CreateVhdx` succeeds -/
  createVhdxOk : Bool
  /-- `AddSCSI` returns nil error -/
  addSCSIOk : Bool
  addSCSIController : Nat
  addSCSILun : Nat
  /-- `CreateProcessEx` for the `test -d` command succeeds -/
  testdStartOk : Bool
  /-- `testdProc.ExitCode()` returns nil error -/
  testdExitOk : Bool
  testdExitCode : Int
  /-- `CreateProcessEx` for the `ls` command succeeds -/
  lsStartOk : Bool
  lsExitOk : Bool
  lsExitCode : Int
  /-- captured stdout of the `ls` command -/
  lsOutput : String
  /-- `CreateProcessEx` for the `mkfs.ext4` command succeeds -/
  mkfsStartOk : Bool
  mkfsExitOk : Bool
  mkfsExitCode : Int
  /-- captured stderr of the `mkfs.ext4` command -/
  mkfsStderr : String
  /-- `removeSCSI` returns nil error -/
  removeOk : Bool
  /-- `CopyFile(destFile, cacheFile, true)` succeeds -/
  seedCopyOk : Bool
deriving DecidableEq, Repr

/-- One constructor per `return fmt.Errorf(...)` site of `CreateLCOWScratch`. -/
inductive ScratchErr where
  | cacheCopyFailed (cacheFile destFile : String)
  | noUvm
  | vhdxCreateFailed (destFile : String)
  | testdStartFailed
  | testdExitFailed
  | testdNonZero (code : Int)
  | lsStartFailed
  | lsExitFailed
  | lsNonZero (code : Int)
  | mkfsStartFailed
  | mkfsExitFailed
  | mkfsNonZero (code : Int) (stderr : String)
  | hotRemoveFailed
  | cacheSeedFailed (destFile cacheFile : String)
deriving DecidableEq, Repr

/-- Outcome of one remote command in the source's recurring pattern:
`CreateProcessEx` error check, then `ExitCode()` error check, then a
non-zero exit-code check. -/
inductive StageOutcome where
  | startFailed
  | exitFailed
  | nonZero (code : Int)
  | passed
deriving DecidableEq, Repr

/-- The source's recurring error ladder for one remote command. -/
def stageOutcome (startOk exitOk : Bool) (code : Int) : StageOutcome :=
  if !startOk then .startFailed
  else if !exitOk then .exitFailed
  else if code != 0 then .nonZero code
  else .passed

/-- `CreateLCOWScratch` lines 392-397: populate the cache when a cache path
was given and the size is the default. -/
def seedStage (env : ScratchEnv) (destFile cacheFile : String) (sizeGB : Nat) :
    Except ScratchErr Unit × List ScratchEvent :=
  if cacheFile != "" && sizeGB == DefaultLCOWScratchSizeGB then
    if !env.seedCopyOk then
      (.error (.cacheSeedFailed destFile cacheFile), [.copyFile destFile cacheFile true])
    else (.ok (), [.copyFile destFile cacheFile true])
  else (.ok (), [])

/-- `CreateLCOWScratch` lines 387-390: hot-remove before the copy; a failure
here is the operation's returned error. -/
def removeStage (env : ScratchEnv) (destFile cacheFile : String) (sizeGB : Nat)
    (controller lun : Nat) : Except ScratchErr Unit × List ScratchEvent :=
  if !env.removeOk then
    (.error .hotRemoveFailed, [.removeSCSI destFile controller lun])
  else
    let rt := seedStage env destFile cacheFile sizeGB
    (rt.1, .removeSCSI destFile controller lun :: rt.2)

/-- `CreateLCOWScratch` lines 360-385: format the device ext4. Every failure
hot-removes the disk before returning; the deferred `mkfsProc.Close()` runs
at return, after the hot-remove. -/
def mkfsStage (env : ScratchEnv) (destFile cacheFile : String) (sizeGB : Nat)
    (controller lun : Nat) : Except ScratchErr Unit × List ScratchEvent :=
  let device := "/dev/" ++ trimSpace env.lsOutput
  match stageOutcome env.mkfsStartOk env.mkfsExitOk env.mkfsExitCode with
  | .startFailed =>
    (.error .mkfsStartFailed,
     [.execProcess (mkfsCommand device), .removeSCSI destFile controller lun])
  | .exitFailed =>
    (.error .mkfsExitFailed,
     [.execProcess (mkfsCommand device), .removeSCSI destFile controller lun,
      .closeProcess (mkfsCommand device)])
  | .nonZero code =>
    (.error (.mkfsNonZero code (trimSpace env.mkfsStderr)),
     [.execProcess (mkfsCommand device), .removeSCSI destFile controller lun,
      .closeProcess (mkfsCommand device)])
  | .passed =>
    let rt := removeStage env destFile cacheFile sizeGB controller lun
    (rt.1, .execProcess (mkfsCommand device) ::
        (rt.2 ++ [.closeProcess (mkfsCommand device)]))

/-- `CreateLCOWScratch` lines 331-357: find the block-device leaf name with
`ls`. Every failure hot-removes the disk before returning; the deferred
`lsProc.Close()` runs at return, before the earlier-registered deferred
closes. -/
def lsStage (env : ScratchEnv) (destFile cacheFile : String) (sizeGB : Nat)
    (controller lun : Nat) : Except ScratchErr Unit × List ScratchEvent :=
  match stageOutcome env.lsStartOk env.lsExitOk env.lsExitCode with
  | .startFailed =>
    (.error .lsStartFailed,
     [.execProcess (lsCommand controller lun), .removeSCSI destFile controller lun])
  | .exitFailed =>
    (.error .lsExitFailed,
     [.execProcess (lsCommand controller lun), .removeSCSI destFile controller lun,
      .closeProcess (lsCommand controller lun)])
  | .nonZero code =>
    (.error (.lsNonZero code),
     [.execProcess (lsCommand controller lun), .removeSCSI destFile controller lun,
      .closeProcess (lsCommand controller lun)])
  | .passed =>
    let rt := mkfsStage env destFile cacheFile sizeGB controller lun
    (rt.1, .execProcess (lsCommand controller lun) ::
        (rt.2 ++ [.closeProcess (lsCommand controller lun)]))

/-- `CreateLCOWScratch` lines 305-329: validate the SCSI device directory
exists with `test -d`. Every failure hot-removes the disk before returning;
`testdProc.Close()` is the first-registered defer, so it runs last. -/
def testdStage (env : ScratchEnv) (destFile cacheFile : String) (sizeGB : Nat)
    (controller lun : Nat) : Except ScratchErr Unit × List ScratchEvent :=
  match stageOutcome env.testdStartOk env.testdExitOk env.testdExitCode with
  | .startFailed =>
    (.error .testdStartFailed,
     [.execProcess (testdCommand controller lun), .removeSCSI destFile controller lun])
  | .exitFailed =>
    (.error .testdExitFailed,
     [.execProcess (testdCommand controller lun), .removeSCSI destFile controller lun,
      .closeProcess (testdCommand controller lun)])
  | .nonZero code =>
    (.error (.testdNonZero code),
     [.execProcess (testdCommand controller lun), .removeSCSI destFile controller lun,
      .closeProcess (testdCommand controller lun)])
  | .passed =>
    let rt := lsStage env destFile cacheFile sizeGB controller lun
    (rt.1, .execProcess (testdCommand controller lun) ::
        (rt.2 ++ [.closeProcess (testdCommand controller lun)]))

/-- The path of `CreateLCOWScratch` taken when the cache did not satisfy the
request (lines 286-401): require a guest, create the VHDx, emit diagnostics,
hot-add, then run the remote stages. -/
def scratchNoCache (env : ScratchEnv) (uvmPresent : Bool) (destFile : String)
    (sizeGB : Nat) (cacheFile : String) :
    Except ScratchErr Unit × List ScratchEvent :=
  if !uvmPresent then (.error .noUvm, [])
  else if !env.createVhdxOk then
    (.error (.vhdxCreateFailed destFile),
     [.createVhdx destFile sizeGB defaultLCOWVhdxBlockSizeMB])
  else
    -- AddSCSI: the source checks err, but the branch body is only a
    -- "TODO Rollback" comment, so execution continues regardless of the
    -- outcome and env.addSCSIOk is never consulted.
    let rt := testdStage env destFile cacheFile sizeGB
                env.addSCSIController env.addSCSILun
    (rt.1, [.createVhdx destFile sizeGB defaultLCOWVhdxBlockSizeMB,
            .debugGCS, .addSCSI destFile] ++ rt.2)

/-- `CreateLCOWScratch` from the cache check onwards (after the size floor
has been applied). -/
def scratchBody (env : ScratchEnv) (uvmPresent : Bool) (destFile : String)
    (sizeGB : Nat) (cacheFile : String) :
    Except ScratchErr Unit × List ScratchEvent :=
  -- Retrieve from cache if the default size and already on disk
  if cacheFile != "" && sizeGB == DefaultLCOWScratchSizeGB then
    if env.cacheStatOk then
      if env.copyCacheOk then
        (.ok (), [.statFile cacheFile, .copyFile cacheFile destFile false])
      else
        (.error (.cacheCopyFailed cacheFile destFile),
         [.statFile cacheFile, .copyFile cacheFile destFile false])
    else
      let rt := scratchNoCache env uvmPresent destFile sizeGB cacheFile
      (rt.1, .statFile cacheFile :: rt.2)
  else scratchNoCache env uvmPresent destFile sizeGB cacheFile

/-- `CreateLCOWScratch(uvm, destFile, sizeGB, cacheFile)`: the size floor is
applied first, then the body runs on the effective size. -/
def CreateLCOWScratch (env : ScratchEnv) (uvmPresent : Bool) (destFile : String)
    (sizeGB : Nat) (cacheFile : String) :
    Except ScratchErr Unit × List ScratchEvent :=
  scratchBody env uvmPresent destFile (effectiveSizeGB sizeGB) cacheFile

/-- Events that touch the utility VM (guest). -/
def isGuestInteraction : ScratchEvent → Bool
  | .debugGCS => true
  | .addSCSI _ => true
  | .execProcess _ => true
  | .closeProcess _ => true
  | .removeSCSI _ _ _ => true
  | _ => false

/-- Events that write to the file at path `p`. -/
def writesToPath (e : ScratchEvent) (p : String) : Bool :=
  match e with
  | .copyFile _ dst _ => dst == p
  | .createVhdx q _ _ => q == p
  | _ => false

def isRemoveEvent : ScratchEvent → Bool
  | .removeSCSI _ _ _ => true
  | _ => false

/-! ## Archive relay (`TarToVhd`, lines 403-435) -/

/-- Externally visible actions of `TarToVhd`, in program order. -/
inductive TarEvent where
  /-- `os.Create(targetVHDFile)` -/
  | fileCreate (p : String)
  /-- deletion of a file; `TarToVhd` never emits this (the source carries a
      `BUGBUG Delete the file on failure` comment instead) -/
  | fileDelete (p : String)
  /-- `uvm.CreateProcessEx` with the given command args -/
  | startProcess (args : List String)
  /-- deferred `tar2vhd.Close()` -/
  | closeProcess
  /-- deferred `outFile.Close()` -/
  | closeFile
  /-- deferred `uvm.DebugLCOWGCS()` -/
  | debugGCS
deriving DecidableEq, Repr

/-- Outcomes of the external calls `TarToVhd` makes. -/
structure TarEnv where
  /-- `os.Create` succeeds -/
  createOk : Bool
  /-- `uvm.CreateProcessEx` for `tar2vhd` succeeds -/
  startOk : Bool
  /-- `byteCounts.Out` reported by `CreateProcessEx` -/
  bytesOut : Int
deriving DecidableEq, Repr

/-- One constructor per `return ..., fmt.Errorf(...)` site of `TarToVhd`. -/
inductive TarErr where
  | noUvm
  | createFailed (p : String)
  | startFailed (p : String)
deriving DecidableEq, Repr

/-- `TarToVhd(uvm, targetVHDFile, reader)`. The Go function returns the pair
`(int64, error)`; error paths return a zero count. Deferred calls
(`tar2vhd.Close`, `outFile.Close`, `uvm.DebugLCOWGCS`) run last-in first-out
on every exit path reached after their registration. -/
def TarToVhd (env : TarEnv) (uvmPresent : Bool) (targetVHDFile : String) :
    (Int × Option TarErr) × List TarEvent :=
  if !uvmPresent then ((0, some .noUvm), [])
  else if !env.createOk then
    ((0, some (.createFailed targetVHDFile)),
     [.fileCreate targetVHDFile, .debugGCS])
  else if !env.startOk then
    ((0, some (.startFailed targetVHDFile)),
     [.fileCreate targetVHDFile, .startProcess ["tar2vhd"], .closeFile, .debugGCS])
  else
    ((env.bytesOut, none),
     [.fileCreate targetVHDFile, .startProcess ["tar2vhd"],
      .closeProcess, .closeFile, .debugGCS])

/-- The cache guard of the source,
`cacheFile != "" && sizeGB == DefaultLCOWScratchSizeGB`. -/
def cacheGuard (cacheFile : String) (sizeGB : Nat) : Bool :=
  cacheFile != "" && sizeGB == DefaultLCOWScratchSizeGB

/-! ## Concrete environments and inputs used to evaluate the model -/

/-- An environment in which every external call succeeds. -/
def envAllOk : ScratchEnv where
  cacheStatOk := true
  copyCacheOk := true
  createVhdxOk := true
  addSCSIOk := true
  addSCSIController := 0
  addSCSILun := 3
  testdStartOk := true
  testdExitOk := true
  testdExitCode := 0
  lsStartOk := true
  lsExitOk := true
  lsExitCode := 0
  lsOutput := "sda\n"
  mkfsStartOk := true
  mkfsExitOk := true
  mkfsExitCode := 0
  mkfsStderr := ""
  removeOk := true
  seedCopyOk := true

/-- Everything succeeds except the SCSI hot-add. -/
def addSCSIFailEnv : ScratchEnv := { envAllOk with addSCSIOk := false }

/-- Everything succeeds except the hot-remove on the success path. -/
def removeFailEnv : ScratchEnv := { envAllOk with removeOk := false }

/-- A bind mount carrying an unrecognized option and no `uvmpath`. -/
def fooOptMount : SpecMount where
  mountType := "bind"
  Source := "/host/src"
  Destination := "/ctr/dst"
  Options := ["foo"]

/-- A bind mount with only supported options and no `uvmpath`. -/
def roOnlyMount : SpecMount where
  mountType := "bind"
  Source := "/host/src"
  Destination := "/ctr/dst"
  Options := ["ro", "rbind"]

/-- A well-formed bind mount. -/
def goodMount : SpecMount where
  mountType := "bind"
  Source := "/host/src"
  Destination := "/ctr/dst"
  Options := ["uvmpath=/tmp/gcs/1/binds", "rw"]

def goodOpts : CreateOptionsM where
  Mounts := [goodMount]

end LCOW

namespace LCOW

/-! ## Claims C7 and C8: mount/bind translation -/

/-- The option loop leaves the accumulator's `uvmPath` untouched and keeps
every option, in order, when each option's key is one of the supported
pass-through keys `rw`, `ro`, `rbind`. -/
lemma processOptsList_supported :
    ∀ (opts acc : List String) (uv : String) (b : Bool),
    (∀ opt ∈ opts, optKey opt = "rw" ∨ optKey opt = "ro" ∨ optKey opt = "rbind") →
    ∃ r, processOptsList opts acc uv b = .ok (acc ++ opts, uv, r)
  | [], acc, uv, b, _ => ⟨b, by simp [processOptsList]⟩
  | opt :: rest, acc, uv, b, h => by
    have hk := h opt (by simp)
    rcases hsplit : splitN2Eq opt with _ | ⟨key, restEls⟩
    · rw [optKey, hsplit] at hk
      simp at hk
    · rw [optKey, hsplit] at hk
      simp at hk
      have step : ∀ b', processOpt opt acc uv b' = .ok (acc ++ [opt], uv, b' || (key = "ro")) := by
        intro b'
        unfold processOpt
        rw [hsplit]
        rcases hk with hk | hk | hk <;> subst hk <;> simp
      rcases processOptsList_supported rest (acc ++ [opt]) uv
          (b || (key = "ro")) (fun o ho => h o (by simp [ho])) with ⟨r, hr⟩
      refine ⟨r, ?_⟩
      unfold processOptsList
      rw [step b]
      simp [hr]

/-- A bind mount whose options all carry supported pass-through keys (hence
no `uvmpath`) is rejected with the missing-uvmpath error, carrying the mount
with its (unchanged) option list. -/
lemma processMount_missingUvmPath (m : SpecMount) (hb : m.mountType = "bind")
    (hopts : ∀ opt ∈ m.Options,
      optKey opt = "rw" ∨ optKey opt = "ro" ∨ optKey opt = "rbind") :
    processMount m = .error (.missingUvmPath m) := by
  rcases processOptsList_supported m.Options [] "" false hopts with ⟨r, hr⟩
  unfold processMount
  rw [if_pos hb, hr]
  simp

lemma translateMounts_nil : translateMounts [] = .ok ([], []) := rfl

lemma translateMounts_cons (m : SpecMount) (rest : List SpecMount) :
    translateMounts (m :: rest) =
      (match processMount m with
       | .error e => .error e
       | .ok (md?, sm) =>
         match translateMounts rest with
         | .error e => .error e
         | .ok (mds, sms) => .ok (md?.toList ++ mds, sm :: sms)) := rfl

/-- Translating a concatenation: once a prefix translates successfully, the
outcome on the rest determines the whole. -/
lemma translateMounts_append_ok :
    ∀ (pre : List SpecMount) (ys : List SpecMount) (mds : List MappedDir)
      (sms : List SpecMount), translateMounts pre = .ok (mds, sms) →
    translateMounts (pre ++ ys) =
      (match translateMounts ys with
       | .error e => .error e
       | .ok (mds2, sms2) => .ok (mds ++ mds2, sms ++ sms2))
  | [], ys, mds, sms, h => by
    rw [translateMounts_nil] at h
    simp at h
    obtain ⟨h1, h2⟩ := h
    subst h1; subst h2
    simp
    rcases translateMounts ys with _ | ⟨m2, s2⟩ <;> simp
  | m :: rest, ys, mds, sms, h => by
    rw [translateMounts_cons] at h
    rcases hp : processMount m with e | ⟨md?, sm⟩ <;> rw [hp] at h
    · exact absurd h (by simp)
    · rcases hrest : translateMounts rest with e | ⟨a, b⟩ <;> rw [hrest] at h
      · exact absurd h (by simp)
      · simp at h
        obtain ⟨h1, h2⟩ := h
        subst h1; subst h2
        rw [List.cons_append, translateMounts_cons, hp,
            translateMounts_append_ok rest ys a b hrest]
        rcases translateMounts ys with e2 | ⟨m2, s2⟩ <;> simp

/-- C7 counterexample: a bind mount whose option list has no `uvmpath=<p>`
option but carries the unrecognized option `"foo"` fails with the
unsupported-option error, not the missing-uvmpath error. -/
theorem translateMounts_foo_not_missingUvmPath :
    hasNoUvmpathOption fooOptMount = true ∧
    translateMounts [fooOptMount] = .error (.unsupportedOption "foo") ∧
    isMissingUvmPathErr (translateMounts [fooOptMount]) = false :=
  ⟨by decide, by rfl, by decide⟩

/-- C7 (amended): a bind mount with no `uvmpath` option fails with the
missing-uvmpath error provided every option on the mount carries one of the
supported keys `rw`, `ro`, `rbind` (an unrecognized option instead fails
with the unsupported-option error), and provided every mount before it in
the list translates successfully. -/
theorem translateMounts_missingUvmPath (pre : List SpecMount) (m : SpecMount)
    (post : List SpecMount) (mds : List MappedDir) (sms : List SpecMount)
    (hpre : translateMounts pre = .ok (mds, sms))
    (hb : m.mountType = "bind")
    (hopts : ∀ opt ∈ m.Options,
      optKey opt = "rw" ∨ optKey opt = "ro" ∨ optKey opt = "rbind") :
    hasNoUvmpathOption m = true ∧
    translateMounts (pre ++ m :: post) = .error (.missingUvmPath m) := by
  constructor
  · unfold hasNoUvmpathOption
    rw [List.all_eq_true]
    intro o ho
    rcases hopts o ho with hk | hk | hk <;> simp [hk]
  · rw [translateMounts_append_ok pre (m :: post) mds sms hpre]
    unfold translateMounts
    rw [processMount_missingUvmPath m hb hopts]

/-- Evaluation of `translateMounts_missingUvmPath` on a concrete list: a
well-formed bind mount followed by a bind mount with only `ro` and `rbind`
options. -/
theorem translateMounts_missingUvmPath_witness :
    hasNoUvmpathOption roOnlyMount = true ∧
    translateMounts [goodMount, roOnlyMount] =
      .error (.missingUvmPath roOnlyMount) :=
  translateMounts_missingUvmPath [goodMount] roOnlyMount []
    [{ HostPath := "/host/src",
       ContainerPath := "/tmp/gcs/1/binds/ctr/dst",
       CreateInUtilityVM := true, ReadOnly := false }]
    [{ goodMount with Source := "/tmp/gcs/1/binds/ctr/dst" }]
    (by rfl) (by rfl) (by decide)

/-- C8: `createLCOWv1` never mutates the caller's mount list in place: the
rewritten mount list is swapped into the caller's options only after the
container has been successfully created, and on every failing outcome —
translation failure or container-creation failure — the caller's original
mount list is returned unchanged. -/
theorem createLCOWv1_mount_frame (ok : Bool) (opts : CreateOptionsM) :
    (∀ e, (createLCOWv1 ok opts).1 = .error e → (createLCOWv1 ok opts).2 = opts) ∧
    (ok = false → (createLCOWv1 ok opts).2 = opts) ∧
    (∀ mds sms, translateMounts opts.Mounts = .ok (mds, sms) → ok = true →
      createLCOWv1 ok opts = (.ok mds, { Mounts := sms })) := by
  unfold createLCOWv1
  rcases h : translateMounts opts.Mounts with e | ⟨mds, sms⟩ <;>
    rcases ok <;> simp_all

/-- Evaluation of `createLCOWv1_mount_frame` at a concrete mount list, for a
failed and a successful container creation. -/
theorem createLCOWv1_mount_frame_witness :
    (createLCOWv1 false goodOpts).2 = goodOpts ∧
    createLCOWv1 true goodOpts =
      (.ok [{ HostPath := "/host/src",
              ContainerPath := "/tmp/gcs/1/binds/ctr/dst",
              CreateInUtilityVM := true, ReadOnly := false }],
       { Mounts := [{ goodMount with Source := "/tmp/gcs/1/binds/ctr/dst" }] }) :=
  ⟨(createLCOWv1_mount_frame false goodOpts).2.1 rfl,
   (createLCOWv1_mount_frame true goodOpts).2.2 _ _ (by rfl) rfl⟩

/-! ## Claims C1-C6: scratch-disk provisioning -/

lemma mem_seedStage (env : ScratchEnv) (d c : String) (sz : Nat)
    (e : ScratchEvent) (h : e ∈ (seedStage env d c sz).2) :
    e = .copyFile d c true ∧ cacheGuard c sz = true := by
  unfold seedStage at h
  unfold cacheGuard
  split_ifs at h <;> simp_all

lemma mem_removeStage (env : ScratchEnv) (d c : String) (sz : Nat)
    (ct l : Nat) (e : ScratchEvent) (h : e ∈ (removeStage env d c sz ct l).2) :
    e = .removeSCSI d ct l ∨
    (e = .copyFile d c true ∧ cacheGuard c sz = true) := by
  unfold removeStage at h
  split_ifs at h <;> simp at h
  · left; exact h
  · rcases h with h | h
    · left; exact h
    · exact .inr (mem_seedStage env d c sz e h)

lemma mem_mkfsStage (env : ScratchEnv) (d c : String) (sz : Nat)
    (ct l : Nat) (e : ScratchEvent) (h : e ∈ (mkfsStage env d c sz ct l).2) :
    e = .execProcess (mkfsCommand ("/dev/" ++ trimSpace env.lsOutput)) ∨
    e = .closeProcess (mkfsCommand ("/dev/" ++ trimSpace env.lsOutput)) ∨
    e = .removeSCSI d ct l ∨
    (e = .copyFile d c true ∧ cacheGuard c sz = true) := by
  unfold mkfsStage at h
  rcases hso : stageOutcome env.mkfsStartOk env.mkfsExitOk env.mkfsExitCode with
    _ | _ | code | _ <;> rw [hso] at h <;> simp at h
  · tauto
  · tauto
  · tauto
  · rcases h with h | h | h
    · tauto
    · rcases mem_removeStage env d c sz ct l e h with h | h <;> tauto
    · tauto

lemma mem_lsStage (env : ScratchEnv) (d c : String) (sz : Nat)
    (ct l : Nat) (e : ScratchEvent) (h : e ∈ (lsStage env d c sz ct l).2) :
    e = .execProcess (lsCommand ct l) ∨
    e = .closeProcess (lsCommand ct l) ∨
    e = .execProcess (mkfsCommand ("/dev/" ++ trimSpace env.lsOutput)) ∨
    e = .closeProcess (mkfsCommand ("/dev/" ++ trimSpace env.lsOutput)) ∨
    e = .removeSCSI d ct l ∨
    (e = .copyFile d c true ∧ cacheGuard c sz = true) := by
  unfold lsStage at h
  rcases hso : stageOutcome env.lsStartOk env.lsExitOk env.lsExitCode with
    _ | _ | code | _ <;> rw [hso] at h <;> simp at h
  · tauto
  · tauto
  · tauto
  · rcases h with h | h | h
    · tauto
    · rcases mem_mkfsStage env d c sz ct l e h with h | h | h | h <;> tauto
    · tauto

lemma mem_testdStage (env : ScratchEnv) (d c : String) (sz : Nat)
    (ct l : Nat) (e : ScratchEvent) (h : e ∈ (testdStage env d c sz ct l).2) :
    e = .execProcess (testdCommand ct l) ∨
    e = .closeProcess (testdCommand ct l) ∨
    e = .execProcess (lsCommand ct l) ∨
    e = .closeProcess (lsCommand ct l) ∨
    e = .execProcess (mkfsCommand ("/dev/" ++ trimSpace env.lsOutput)) ∨
    e = .closeProcess (mkfsCommand ("/dev/" ++ trimSpace env.lsOutput)) ∨
    e = .removeSCSI d ct l ∨
    (e = .copyFile d c true ∧ cacheGuard c sz = true) := by
  unfold testdStage at h
  rcases hso : stageOutcome env.testdStartOk env.testdExitOk env.testdExitCode with
    _ | _ | code | _ <;> rw [hso] at h <;> simp at h
  · tauto
  · tauto
  · tauto
  · rcases h with h | h | h
    · tauto
    · rcases mem_lsStage env d c sz ct l e h with h | h | h | h | h | h <;> tauto
    · tauto

lemma countP_seedStage (env : ScratchEnv) (d c : String) (sz : Nat) :
    (seedStage env d c sz).2.countP isRemoveEvent = 0 := by
  unfold seedStage
  split_ifs <;> simp [isRemoveEvent, List.countP_cons]

lemma countP_removeStage (env : ScratchEnv) (d c : String) (sz : Nat)
    (ct l : Nat) : (removeStage env d c sz ct l).2.countP isRemoveEvent = 1 := by
  unfold removeStage
  split_ifs <;>
    simp [isRemoveEvent, List.countP_cons, countP_seedStage]

lemma countP_mkfsStage (env : ScratchEnv) (d c : String) (sz : Nat)
    (ct l : Nat) : (mkfsStage env d c sz ct l).2.countP isRemoveEvent = 1 := by
  unfold mkfsStage
  rcases hso : stageOutcome env.mkfsStartOk env.mkfsExitOk env.mkfsExitCode with
    _ | _ | code | _ <;>
    simp [isRemoveEvent, List.countP_cons, List.countP_append, countP_removeStage]

lemma countP_lsStage (env : ScratchEnv) (d c : String) (sz : Nat)
    (ct l : Nat) : (lsStage env d c sz ct l).2.countP isRemoveEvent = 1 := by
  unfold lsStage
  rcases hso : stageOutcome env.lsStartOk env.lsExitOk env.lsExitCode with
    _ | _ | code | _ <;>
    simp [isRemoveEvent, List.countP_cons, List.countP_append, countP_mkfsStage]

lemma countP_testdStage (env : ScratchEnv) (d c : String) (sz : Nat)
    (ct l : Nat) : (testdStage env d c sz ct l).2.countP isRemoveEvent = 1 := by
  unfold testdStage
  rcases hso : stageOutcome env.testdStartOk env.testdExitOk env.testdExitCode with
    _ | _ | code | _ <;>
    simp [isRemoveEvent, List.countP_cons, List.countP_append, countP_lsStage]

/-- When a remote stage's three checks pass, `stageOutcome` is `passed`. -/
lemma stageOutcome_passed (code : Int) (h : code = 0) :
    stageOutcome true true code = .passed := by
  subst h; rfl

/-- Result propagation through the remote stages when every remote command
succeeds. -/
lemma testdStage_result_all_ok (env : ScratchEnv) (d c : String) (sz : Nat)
    (ct l : Nat)
    (ht1 : env.testdStartOk = true) (ht2 : env.testdExitOk = true)
    (ht3 : env.testdExitCode = 0)
    (hl1 : env.lsStartOk = true) (hl2 : env.lsExitOk = true)
    (hl3 : env.lsExitCode = 0)
    (hm1 : env.mkfsStartOk = true) (hm2 : env.mkfsExitOk = true)
    (hm3 : env.mkfsExitCode = 0) :
    (testdStage env d c sz ct l).1 = (removeStage env d c sz ct l).1 := by
  unfold testdStage lsStage mkfsStage
  rw [ht1, ht2, ht3, hl1, hl2, hl3, hm1, hm2, hm3]
  simp [stageOutcome_passed]

lemma testdStage_result_removeFail (env : ScratchEnv) (d c : String) (sz : Nat)
    (ct l : Nat)
    (ht1 : env.testdStartOk = true) (ht2 : env.testdExitOk = true)
    (ht3 : env.testdExitCode = 0)
    (hl1 : env.lsStartOk = true) (hl2 : env.lsExitOk = true)
    (hl3 : env.lsExitCode = 0)
    (hm1 : env.mkfsStartOk = true) (hm2 : env.mkfsExitOk = true)
    (hm3 : env.mkfsExitCode = 0) (hrm : env.removeOk = false) :
    (testdStage env d c sz ct l).1 = .error .hotRemoveFailed := by
  rw [testdStage_result_all_ok env d c sz ct l ht1 ht2 ht3 hl1 hl2 hl3 hm1 hm2 hm3]
  unfold removeStage
  rw [hrm]
  simp

/-- C1: on every run that reaches the SCSI hot-add, the hot-remove happens
exactly once in the emitted trace — in particular exactly once before the
error returns on each Validate/LocateDevice/Format failure — and when every
remote step succeeds but the hot-remove fails, that failure is the
operation's returned error rather than being swallowed. -/
theorem CreateLCOWScratch_detach_once (env : ScratchEnv) (u : Bool)
    (d c : String) (s : Nat)
    (hatt : ScratchEvent.addSCSI d ∈ (CreateLCOWScratch env u d s c).2) :
    (CreateLCOWScratch env u d s c).2.countP isRemoveEvent = 1 ∧
    (env.testdStartOk = true → env.testdExitOk = true → env.testdExitCode = 0 →
     env.lsStartOk = true → env.lsExitOk = true → env.lsExitCode = 0 →
     env.mkfsStartOk = true → env.mkfsExitOk = true → env.mkfsExitCode = 0 →
     env.removeOk = false →
     (CreateLCOWScratch env u d s c).1 = .error .hotRemoveFailed) := by
  unfold CreateLCOWScratch scratchBody scratchNoCache at hatt ⊢
  split_ifs at hatt ⊢ <;>
    first
    | (exfalso; revert hatt; simp; done)
    | (constructor
       · simp [List.countP_cons, List.countP_append, isRemoveEvent,
               countP_testdStage]
       · intro ht1 ht2 ht3 hl1 hl2 hl3 hm1 hm2 hm3 hrm
         exact testdStage_result_removeFail env d c _ _ _
           ht1 ht2 ht3 hl1 hl2 hl3 hm1 hm2 hm3 hrm)

/-- Evaluation of `CreateLCOWScratch_detach_once` on a run where everything
succeeds except the final hot-remove. -/
theorem CreateLCOWScratch_detach_once_witness :
    (CreateLCOWScratch removeFailEnv true "dest.vhdx" 20 "").2.countP
      isRemoveEvent = 1 ∧
    (CreateLCOWScratch removeFailEnv true "dest.vhdx" 20 "").1 =
      .error .hotRemoveFailed :=
  ⟨(CreateLCOWScratch_detach_once removeFailEnv true "dest.vhdx" "" 20
      (by decide)).1,
   (CreateLCOWScratch_detach_once removeFailEnv true "dest.vhdx" "" 20
      (by decide)).2 rfl rfl rfl rfl rfl rfl rfl rfl rfl rfl⟩

/-- C2 (divergence witness): when the SCSI hot-add fails, `CreateLCOWScratch`
does not abort — the `if err != nil` branch after `AddSCSI` contains only a
`TODO Rollback` comment — so the subsequent remote steps (validate, locate,
format) all run in the guest and the operation can even return success,
instead of surfacing the attach error. -/
theorem CreateLCOWScratch_attach_error_ignored :
    addSCSIFailEnv.addSCSIOk = false ∧
    (CreateLCOWScratch addSCSIFailEnv true "dest.vhdx" 20 "").1 = .ok () ∧
    ScratchEvent.execProcess (testdCommand 0 3) ∈
      (CreateLCOWScratch addSCSIFailEnv true "dest.vhdx" 20 "").2 ∧
    ScratchEvent.execProcess (lsCommand 0 3) ∈
      (CreateLCOWScratch addSCSIFailEnv true "dest.vhdx" 20 "").2 ∧
    ScratchEvent.execProcess (mkfsCommand "/dev/sda") ∈
      (CreateLCOWScratch addSCSIFailEnv true "dest.vhdx" 20 "").2 :=
  ⟨by decide, by rfl, by decide, by decide, by decide⟩

/-- C3 counterexample: the `-O` feature list passed to `mkfs.ext4` does NOT
disable the sparse-super and uninit-block-group features — `sparse_super2`
and `uninit_bg` appear without the `^` (disable) prefix, so they are
explicitly enabled. -/
theorem mkfs_features_not_all_disabled :
    ScratchEvent.execProcess (mkfsCommand "/dev/sda") ∈
      (CreateLCOWScratch envAllOk true "dest.vhdx" 20 "").2 ∧
    featureDisabled "uninit_bg" = false ∧
    featureDisabled "sparse_super2" = false ∧
    featureDisabled "sparse_super" = false ∧
    featureEnabled "uninit_bg" = true ∧
    featureEnabled "sparse_super2" = true :=
  ⟨by decide, by decide, by decide, by decide, by decide, by decide⟩

/-- C3 (amended): the Format step always runs `mkfs.ext4` with lazy
inode-table initialization enabled (`-E lazy_itable_init=1`) and the feature
list `^has_journal,sparse_super2,uninit_bg,^resize_inode`: journal and
resize-inode are disabled, while sparse_super2 and uninit_bg are enabled,
not disabled. -/
theorem CreateLCOWScratch_mkfs_flags (env : ScratchEnv) (u : Bool)
    (d c : String) (s : Nat) (args : List String)
    (hmem : ScratchEvent.execProcess args ∈ (CreateLCOWScratch env u d s c).2)
    (hhead : args.headD "" = "mkfs.ext4") :
    args = mkfsCommand ("/dev/" ++ trimSpace env.lsOutput) ∧
    "-E" ∈ args ∧ "lazy_itable_init=1" ∈ args ∧
    "-O" ∈ args ∧ mkfsFeatureSpec ∈ args ∧
    featureDisabled "has_journal" = true ∧
    featureDisabled "resize_inode" = true ∧
    featureEnabled "sparse_super2" = true ∧
    featureEnabled "uninit_bg" = true ∧
    featureDisabled "sparse_super2" = false ∧
    featureDisabled "uninit_bg" = false := by
  have hargs : args = mkfsCommand ("/dev/" ++ trimSpace env.lsOutput) := by
    unfold CreateLCOWScratch scratchBody scratchNoCache at hmem
    split_ifs at hmem <;> simp at hmem <;>
      rcases mem_testdStage env d c _ env.addSCSIController
        env.addSCSILun _ hmem with h | h | h | h | h | h | h | ⟨h, hg⟩ <;>
      simp at h <;>
      first
      | exact h
      | (rw [h] at hhead
         simp [testdCommand, lsCommand] at hhead)
  subst hargs
  refine ⟨rfl, ?_, ?_, ?_, ?_, by decide, by decide, by decide, by decide,
          by decide, by decide⟩ <;> simp [mkfsCommand]

/-- Evaluation of `CreateLCOWScratch_mkfs_flags` on a successful run. -/
theorem CreateLCOWScratch_mkfs_flags_witness :
    mkfsCommand "/dev/sda" =
      mkfsCommand ("/dev/" ++ trimSpace envAllOk.lsOutput) ∧
    featureDisabled "has_journal" = true ∧
    featureDisabled "uninit_bg" = false :=
  ⟨(CreateLCOWScratch_mkfs_flags envAllOk true "dest.vhdx" "" 20
      (mkfsCommand "/dev/sda") (by decide) (by decide)).1,
   (CreateLCOWScratch_mkfs_flags envAllOk true "dest.vhdx" "" 20
      (mkfsCommand "/dev/sda") (by decide) (by decide)).2.2.2.2.2.1,
   (CreateLCOWScratch_mkfs_flags envAllOk true "dest.vhdx" "" 20
      (mkfsCommand "/dev/sda") (by decide) (by decide)).2.2.2.2.2.2.2.2.2.2⟩

/-- Every disk image created by the body is created with the size the body
was given. -/
lemma scratchBody_createVhdx_size (env : ScratchEnv) (u : Bool) (d : String)
    (sz : Nat) (c : String) :
    ∀ p s' b, ScratchEvent.createVhdx p s' b ∈ (scratchBody env u d sz c).2 →
      s' = sz := by
  intro p s' b hmem
  unfold scratchBody scratchNoCache at hmem
  split_ifs at hmem <;> simp at hmem <;>
    first
    | tauto
    | (rcases hmem with ⟨h1, h2, h3⟩ | hmem
       · exact h2
       · rcases mem_testdStage env d c sz env.addSCSIController
           env.addSCSILun _ hmem with h | h | h | h | h | h | h | ⟨h, hg⟩ <;>
           simp at h)

/-- C4: requested sizes below the default minimum of 20 GB are floored up to
20 GB and that effective size is what the whole operation runs on (so all
subsequent steps — cache eligibility, image creation, cache seeding — see the
effective size); sizes at or above 20 GB are used unchanged. -/
theorem CreateLCOWScratch_size_floor (env : ScratchEnv) (u : Bool)
    (d c : String) (s : Nat) :
    CreateLCOWScratch env u d s c = scratchBody env u d (effectiveSizeGB s) c ∧
    (s < DefaultLCOWScratchSizeGB → effectiveSizeGB s = DefaultLCOWScratchSizeGB) ∧
    (DefaultLCOWScratchSizeGB ≤ s → effectiveSizeGB s = s) ∧
    (s < DefaultLCOWScratchSizeGB →
      CreateLCOWScratch env u d s c =
        CreateLCOWScratch env u d DefaultLCOWScratchSizeGB c) ∧
    (∀ p sz bk, ScratchEvent.createVhdx p sz bk ∈ (CreateLCOWScratch env u d s c).2 →
      sz = effectiveSizeGB s) := by
  refine ⟨rfl, ?_, ?_, ?_, ?_⟩
  · intro h
    unfold effectiveSizeGB
    rw [if_pos h]
  · intro h
    unfold effectiveSizeGB
    rw [if_neg (Nat.not_lt.mpr h)]
  · intro h
    unfold CreateLCOWScratch
    congr 1
    unfold effectiveSizeGB
    simp [h]
  · exact fun p sz bk hmem => scratchBody_createVhdx_size env u d _ c p sz bk hmem

/-- Evaluation of `CreateLCOWScratch_size_floor` at a 10 GB request: it runs
identically to a 20 GB request. -/
theorem CreateLCOWScratch_size_floor_witness :
    CreateLCOWScratch envAllOk true "dest.vhdx" 10 "" =
      CreateLCOWScratch envAllOk true "dest.vhdx" 20 "" ∧
    effectiveSizeGB 10 = DefaultLCOWScratchSizeGB :=
  ⟨(CreateLCOWScratch_size_floor envAllOk true "dest.vhdx" "" 10).2.2.2.1
      (by decide),
   (CreateLCOWScratch_size_floor envAllOk true "dest.vhdx" "" 10).2.1
      (by decide)⟩

/-- C5: when a cache path is given, the effective size is the default, and
the cache file exists, the operation consists of exactly the stat of the
cache and a non-durable copy of the cache to the destination — the cache is
only read, no guest interaction of any kind happens (no image creation, no
attach, no remote command, no detach), and the result is success when the
copy succeeds. -/
theorem CreateLCOWScratch_cache_hit (env : ScratchEnv) (u : Bool)
    (d c : String) (s : Nat)
    (hc : c ≠ "") (hs : effectiveSizeGB s = DefaultLCOWScratchSizeGB)
    (hstat : env.cacheStatOk = true) (hcopy : env.copyCacheOk = true) :
    CreateLCOWScratch env u d s c =
      (.ok (), [.statFile c, .copyFile c d false]) ∧
    (∀ e ∈ (CreateLCOWScratch env u d s c).2, isGuestInteraction e = false) ∧
    (d ≠ c → ∀ e ∈ (CreateLCOWScratch env u d s c).2, writesToPath e c = false) := by
  have hguard : (c != "" && effectiveSizeGB s == DefaultLCOWScratchSizeGB) = true := by
    simp [hc, hs]
  have h1 : CreateLCOWScratch env u d s c =
      (.ok (), [.statFile c, .copyFile c d false]) := by
    unfold CreateLCOWScratch scratchBody
    rw [hguard, hstat, hcopy]
    simp
  refine ⟨h1, ?_, ?_⟩
  · rw [h1]
    simp [isGuestInteraction]
  · intro hdc
    rw [h1]
    simp [writesToPath, hdc]

/-- Evaluation of `CreateLCOWScratch_cache_hit` at a concrete cache hit. -/
theorem CreateLCOWScratch_cache_hit_witness :
    CreateLCOWScratch envAllOk true "dest.vhdx" 20 "cache.vhdx" =
      (.ok (), [.statFile "cache.vhdx",
                .copyFile "cache.vhdx" "dest.vhdx" false]) :=
  (CreateLCOWScratch_cache_hit envAllOk true "dest.vhdx" "cache.vhdx" 20
    (by decide) (by decide) rfl rfl).1

/-- C6: the cache file is written only when a cache path was supplied and the
effective size is the default (any copy event whose destination is the cache
path implies the eligibility condition); on every other call no event writes
the cache path; and when seeding happens it is a durable copy of the
destination into the cache whose failure fails the whole operation. -/
theorem CreateLCOWScratch_cache_seed_frame (env : ScratchEnv) (u : Bool)
    (d c : String) (s : Nat) :
    (∀ src dur, ScratchEvent.copyFile src c dur ∈ (CreateLCOWScratch env u d s c).2 →
      c ≠ "" ∧ effectiveSizeGB s = DefaultLCOWScratchSizeGB) ∧
    (¬(c ≠ "" ∧ effectiveSizeGB s = DefaultLCOWScratchSizeGB) → d ≠ c →
      ∀ e ∈ (CreateLCOWScratch env u d s c).2, writesToPath e c = false) ∧
    (c ≠ "" → effectiveSizeGB s = DefaultLCOWScratchSizeGB →
     env.cacheStatOk = false → u = true → env.createVhdxOk = true →
     env.testdStartOk = true → env.testdExitOk = true → env.testdExitCode = 0 →
     env.lsStartOk = true → env.lsExitOk = true → env.lsExitCode = 0 →
     env.mkfsStartOk = true → env.mkfsExitOk = true → env.mkfsExitCode = 0 →
     env.removeOk = true →
     ScratchEvent.copyFile d c true ∈ (CreateLCOWScratch env u d s c).2 ∧
     (env.seedCopyOk = true → (CreateLCOWScratch env u d s c).1 = .ok ()) ∧
     (env.seedCopyOk = false →
       (CreateLCOWScratch env u d s c).1 = .error (.cacheSeedFailed d c))) := by
  refine ⟨?_, ?_, ?_⟩
  · intro src dur hmem
    unfold CreateLCOWScratch scratchBody scratchNoCache at hmem
    split_ifs at hmem with hg <;> simp at hmem <;>
      first
      | (simp only [cacheGuard] at hg
         simp only [Bool.and_eq_true, bne_iff_ne, beq_iff_eq] at hg
         exact ⟨hg.1, hg.2⟩)
      | (rcases mem_testdStage env d c _ env.addSCSIController
           env.addSCSILun _ hmem with h | h | h | h | h | h | h | ⟨h, hgd⟩ <;>
           simp at h
         · simp only [cacheGuard, Bool.and_eq_true, bne_iff_ne, beq_iff_eq] at hgd
           exact ⟨hgd.1, hgd.2⟩)
  · intro hng hdc e he
    unfold CreateLCOWScratch scratchBody scratchNoCache at he
    split_ifs at he with hg <;>
      first
      | (exfalso
         apply hng
         simp only [Bool.and_eq_true, bne_iff_ne, beq_iff_eq] at hg
         exact ⟨hg.1, hg.2⟩)
      | (simp at he <;>
         first
         | (subst he; simp [writesToPath, hdc])
         | (rcases he with he | he | he | he
            · subst he; simp [writesToPath, hdc]
            · subst he; simp [writesToPath]
            · subst he; simp [writesToPath]
            · rcases mem_testdStage env d c _ env.addSCSIController
                env.addSCSILun _ he with h | h | h | h | h | h | h | ⟨h, hgd⟩ <;>
                first
                | (subst h; simp [writesToPath]; done)
                | (exfalso
                   simp only [cacheGuard, Bool.and_eq_true, bne_iff_ne,
                     beq_iff_eq] at hgd
                   exact hng ⟨hgd.1, hgd.2⟩)))
  · intro hc hs hstat hu hvhdx ht1 ht2 ht3 hl1 hl2 hl3 hm1 hm2 hm3 hrm
    subst hu
    have hguard : (c != "" && effectiveSizeGB s == DefaultLCOWScratchSizeGB) = true := by
      simp [hc, hs]
    rcases hseed : env.seedCopyOk <;>
      simp [CreateLCOWScratch, scratchBody, scratchNoCache, testdStage,
            lsStage, mkfsStage, removeStage, seedStage, stageOutcome, hguard,
            hstat, hvhdx, ht1, ht2, ht3, hl1, hl2, hl3, hm1, hm2, hm3, hrm,
            hseed]

/-- Evaluation of `CreateLCOWScratch_cache_seed_frame` on a run that misses
the cache and seeds it afterwards. -/
theorem CreateLCOWScratch_cache_seed_frame_witness :
    ScratchEvent.copyFile "dest.vhdx" "cache.vhdx" true ∈
      (CreateLCOWScratch { envAllOk with cacheStatOk := false } true
        "dest.vhdx" 20 "cache.vhdx").2 ∧
    (CreateLCOWScratch { envAllOk with cacheStatOk := false } true
        "dest.vhdx" 20 "cache.vhdx").1 = .ok () :=
  ⟨((CreateLCOWScratch_cache_seed_frame { envAllOk with cacheStatOk := false }
      true "dest.vhdx" "cache.vhdx" 20).2.2 (by decide) (by decide) rfl rfl rfl
      rfl rfl rfl rfl rfl rfl rfl rfl rfl rfl).1,
   ((CreateLCOWScratch_cache_seed_frame { envAllOk with cacheStatOk := false }
      true "dest.vhdx" "cache.vhdx" 20).2.2 (by decide) (by decide) rfl rfl rfl
      rfl rfl rfl rfl rfl rfl rfl rfl rfl rfl).2.1 rfl⟩

/-! ## Claim C9: TarToVhd contract -/

/-- C9: `TarToVhd` fails with the no-guest error whenever the guest argument
is absent; otherwise, when the remote extraction command starts successfully
it returns the count of bytes written to the destination file, and when
starting the remote command fails it propagates that start-up failure as an
error. -/
theorem TarToVhd_contract (env : TarEnv) (u : Bool) (p : String) :
    (u = false → TarToVhd env u p = ((0, some .noUvm), [])) ∧
    (u = true → env.createOk = true → env.startOk = true →
      (TarToVhd env u p).1 = (env.bytesOut, none)) ∧
    (u = true → env.createOk = true → env.startOk = false →
      (TarToVhd env u p).1 = (0, some (.startFailed p))) := by
  unfold TarToVhd
  rcases u <;> rcases env with ⟨co, so, n⟩ <;> rcases co <;> rcases so <;> simp

/-- Evaluation of `TarToVhd_contract` at concrete inputs: a nil guest, a
successful run, and a failed start. -/
theorem TarToVhd_contract_witness :
    TarToVhd { createOk := true, startOk := true, bytesOut := 42 } false "out.vhd" =
      ((0, some .noUvm), []) ∧
    (TarToVhd { createOk := true, startOk := true, bytesOut := 42 } true "out.vhd").1 =
      (42, none) ∧
    (TarToVhd { createOk := true, startOk := false, bytesOut := 0 } true "out.vhd").1 =
      (0, some (.startFailed "out.vhd")) :=
  ⟨(TarToVhd_contract { createOk := true, startOk := true, bytesOut := 42 }
      false "out.vhd").1 rfl,
   (TarToVhd_contract { createOk := true, startOk := true, bytesOut := 42 }
      true "out.vhd").2.1 rfl rfl rfl,
   (TarToVhd_contract { createOk := true, startOk := false, bytesOut := 0 }
      true "out.vhd").2.2 rfl rfl rfl⟩

/-! ## Claim C10: TarToVhd error path leaves the destination file in place -/

/-- C10: with a guest supplied, `TarToVhd` creates (or truncates) the local
destination file before starting the remote extraction command; when starting
the remote command fails it returns 0 and an error, and no deletion of the
destination file ever happens — the error path does not restore the prior
state of the destination path. -/
theorem TarToVhd_no_cleanup_on_start_failure (env : TarEnv) (p : String)
    (hc : env.createOk = true) :
    (TarToVhd env true p).2.take 2 =
      [.fileCreate p, .startProcess ["tar2vhd"]] ∧
    (env.startOk = false →
      (TarToVhd env true p).1 = (0, some (.startFailed p))) ∧
    (∀ q, TarEvent.fileDelete q ∉ (TarToVhd env true p).2) := by
  unfold TarToVhd
  rcases env with ⟨co, so, n⟩
  rcases so <;> simp_all

/-- Evaluation of `TarToVhd_no_cleanup_on_start_failure` at a concrete
failed start. -/
theorem TarToVhd_no_cleanup_witness :
    (TarToVhd { createOk := true, startOk := false, bytesOut := 0 } true "out.vhd").2.take 2 =
      [.fileCreate "out.vhd", .startProcess ["tar2vhd"]] ∧
    ((false : Bool) = false →
      (TarToVhd { createOk := true, startOk := false, bytesOut := 0 } true "out.vhd").1 =
      (0, some (.startFailed "out.vhd"))) ∧
    (∀ q, TarEvent.fileDelete q ∉
      (TarToVhd { createOk := true, startOk := false, bytesOut := 0 } true "out.vhd").2) :=
  TarToVhd_no_cleanup_on_start_failure
    { createOk := true, startOk := false, bytesOut := 0 } "out.vhd" rfl

end LCOW

section SanityChecks
open LCOW

example : pathJoin "/tmp/gcs" "target" = "/tmp/gcs/target" := by decide
example : pathJoin "/a/../b" "c" = "/b/c" := by decide
example : splitN2Eq "uvmpath=/x=y" = ["uvmpath", "/x=y"] := by decide
example : splitN2Eq "rw" = ["rw"] := by decide
example : natToStr 0 = "0" := by decide
example : natToStr 255 = "255" := by decide
example : trimSpace " sda\n" = "sda" := by decide
example : scsiDevPath 0 3 = "/sys/bus/scsi/devices/0:0:0:3" := by decide

end SanityChecks
